import Mathlib

/-!
Verification of the MNIST denoising convolutional autoencoder notebook
(`denoising_autoencoder.ipynb`) against its natural-language specification.

The notebook is a linear script: load MNIST, normalise to [0,1] and reshape
to (N, 28, 28, 1), add Gaussian noise scaled by 0.5 and clip to [0,1], build
a fixed conv/pool/upsample autoencoder, train it with Adam on binary
cross-entropy, save it to `denoising_autoencoder.h5`, and visualise results.

We shallow-embed each stage: numpy array operations become exact operations
on rational-valued flat arrays carrying an explicit shape; the Keras layer
stack becomes a list of layer descriptors built by sequential application as
in the source; the forward pass becomes a real-valued tensor semantics; the
script's side effects become an explicit event list.
-/

namespace Denoise

/-- A numpy ndarray, shallow-embedded: a shape (list of dimension sizes)
together with the flat, row-major data.  Pixel arithmetic is embedded over
`ℚ` (the notebook's float arithmetic, idealised as exact). -/
structure NpArray where
  shape : List ℕ
  data : List ℚ
  deriving DecidableEq

/-- `len(x)` of the notebook: the first (sample) dimension of the array. -/
def NpArray.len (a : NpArray) : ℕ := a.shape.headD 0

/-- `x.astype('float32') / 255.` — elementwise division of every entry by
255; the shape is unchanged.  The `astype` cast is exact on pixel values. -/
def scaleDiv255 (a : NpArray) : NpArray :=
  ⟨a.shape, a.data.map (fun v => v / 255)⟩

/-- `np.reshape(a, s)`: reinterprets the same flat data under the new shape;
fails (numpy raises) when the element count does not match. -/
def npReshape (a : NpArray) (s : List ℕ) : Option NpArray :=
  if a.data.length = s.prod then some ⟨s, a.data⟩ else none

/-- The preprocessing of cell 1:
`x = x.astype('float32') / 255.` followed by
`x = np.reshape(x, (len(x), 28, 28, 1))`. -/
def preprocess (a : NpArray) : Option NpArray :=
  npReshape (scaleDiv255 a) [a.len, 28, 28, 1]

/-- `np.clip(a, lo, hi)`: elementwise `minimum(hi, maximum(a, lo))`. -/
def npClip (lo hi : ℚ) (a : NpArray) : NpArray :=
  ⟨a.shape, a.data.map (fun v => min hi (max lo v))⟩

/-- Scalar-times-array broadcasting `c * a`. -/
def npScale (c : ℚ) (a : NpArray) : NpArray :=
  ⟨a.shape, a.data.map (fun v => c * v)⟩

/-- Elementwise array addition; numpy raises unless the shapes agree
(no nontrivial broadcasting occurs in the notebook: the noise is drawn
with `size=x.shape`). -/
def npAdd (a b : NpArray) : Option NpArray :=
  if a.shape = b.shape then some ⟨a.shape, List.zipWith (· + ·) a.data b.data⟩
  else none

/-- The noise-injection step of cell 1:
`x_noisy = x + noise_factor * np.random.normal(loc=0.0, scale=1.0, size=x.shape)`
followed by `x_noisy = np.clip(x_noisy, 0., 1.)`.
The Gaussian draw is passed in as the argument `noise` (one entry per
element), so the definition covers every possible draw. -/
def addNoise (noiseFactor : ℚ) (clean noise : NpArray) : Option NpArray :=
  (npAdd clean (npScale noiseFactor noise)).map (npClip 0 1)

/-- The notebook's hard-coded `noise_factor = 0.5`. -/
def noise_factor : ℚ := 1 / 2

/-! ### The Keras layer stack (cell 2) as layer descriptors -/

/-- Keras `padding=` argument of a layer. -/
inductive Padding where
  | same
  | valid
  deriving DecidableEq

/-- Keras `activation=` argument of a `Conv2D` layer. -/
inductive Activation where
  | relu
  | sigmoid
  deriving DecidableEq

/-- One layer of the model, as configured at construction time. -/
inductive LayerSpec where
  | conv2D (filters : ℕ) (kernel : ℕ × ℕ) (activation : Activation) (padding : Padding)
  | maxPooling2D (pool : ℕ × ℕ) (padding : Padding)
  | upSampling2D (size : ℕ × ℕ)
  deriving DecidableEq

/-- A graph under construction in the Keras functional API: the chain of
layers applied so far to the input tensor. -/
structure Graph where
  layers : List LayerSpec
  deriving DecidableEq

/-- Applying one more layer to a graph (the call `Layer(...)(x)`). -/
def applyL (l : LayerSpec) (g : Graph) : Graph := ⟨g.layers ++ [l]⟩

/-- `input_img = Input(shape=(28, 28, 1))`. -/
def input_img : Graph := ⟨[]⟩

/-- The encoder chain of cell 2:
`x = Conv2D(32, (3, 3), activation='relu', padding='same')(input_img)`,
`x = MaxPooling2D((2, 2), padding='same')(x)`,
`x = Conv2D(16, (3, 3), activation='relu', padding='same')(x)`,
`encoded = MaxPooling2D((2, 2), padding='same')(x)`. -/
def encoded : Graph :=
  applyL (.maxPooling2D (2, 2) .same)
    (applyL (.conv2D 16 (3, 3) .relu .same)
      (applyL (.maxPooling2D (2, 2) .same)
        (applyL (.conv2D 32 (3, 3) .relu .same) input_img)))

/-- The decoder chain of cell 2:
`x = Conv2D(16, (3, 3), activation='relu', padding='same')(encoded)`,
`x = UpSampling2D((2, 2))(x)`,
`x = Conv2D(32, (3, 3), activation='relu', padding='same')(x)`,
`x = UpSampling2D((2, 2))(x)`,
`decoded = Conv2D(1, (3, 3), activation='sigmoid', padding='same')(x)`. -/
def decoded : Graph :=
  applyL (.conv2D 1 (3, 3) .sigmoid .same)
    (applyL (.upSampling2D (2, 2))
      (applyL (.conv2D 32 (3, 3) .relu .same)
        (applyL (.upSampling2D (2, 2))
          (applyL (.conv2D 16 (3, 3) .relu .same) encoded))))

/-- `autoencoder = Model(input_img, decoded)`: the full layer stack of the
model is the chain that produced `decoded`. -/
def autoencoderLayers : List LayerSpec := decoded.layers

/-! ### Shape semantics of the layers -/

/-- A (height, width, channels) tensor shape, one sample of a batch. -/
structure Shape3 where
  h : ℕ
  w : ℕ
  c : ℕ
  deriving DecidableEq

/-- Output shape of one layer on an input shape, following Keras:
stride-1 `same` convolution preserves the spatial size and sets the channel
count to `filters`; a `valid` convolution shrinks by `kernel - 1`; pooling
with pool size `p` and stride `p` produces `⌈d / p⌉` (`same`) or `⌊d / p⌋`
(`valid`) spatial cells; upsampling multiplies the spatial size. -/
def layerOutShape : LayerSpec → Shape3 → Shape3
  | .conv2D f _ _ .same, s => ⟨s.h, s.w, f⟩
  | .conv2D f (kh, kw) _ .valid, s => ⟨s.h - kh + 1, s.w - kw + 1, f⟩
  | .maxPooling2D (ph, pw) .same, s => ⟨(s.h + ph - 1) / ph, (s.w + pw - 1) / pw, s.c⟩
  | .maxPooling2D (ph, pw) .valid, s => ⟨s.h / ph, s.w / pw, s.c⟩
  | .upSampling2D (sh, sw), s => ⟨s.h * sh, s.w * sw, s.c⟩

/-- Output shape of the whole layer stack on an input shape. -/
def modelOutShape (s : Shape3) : Shape3 :=
  autoencoderLayers.foldl (fun t l => layerOutShape l t) s

/-! ### Value semantics of the forward pass

One sample of a batch is a real-valued tensor, read as a total function of
(row, column, channel); a shape `Shape3` says which indices are meaningful.
The notebook's float arithmetic is idealised over `ℝ` (the sigmoid is
transcendental, so `ℚ` cannot host it). -/

/-- One sample: value at (row, column, channel). -/
def Tensor3 : Type := ℕ → ℕ → ℕ → ℝ

/-- Zero-padded read used by `same` convolution: positions outside the
spatial extent of the input read as 0. -/
def padRead (s : Shape3) (t : Tensor3) (i j : ℤ) (c : ℕ) : ℝ :=
  if 0 ≤ i ∧ i < (s.h : ℤ) ∧ 0 ≤ j ∧ j < (s.w : ℤ) then t i.toNat j.toNat c else 0

/-- `relu(x) = max(0, x)`. -/
def relu (x : ℝ) : ℝ := max 0 x

/-- `sigmoid(x) = 1 / (1 + exp(-x))`. -/
noncomputable def sigmoid (x : ℝ) : ℝ := 1 / (1 + Real.exp (-x))

/-- Apply a `Conv2D` activation. -/
noncomputable def applyAct : Activation → ℝ → ℝ
  | .relu => relu
  | .sigmoid => sigmoid

/-- Trainable parameters of one `Conv2D` layer: a kernel indexed
(kernel row, kernel column, input channel, output filter) and one bias per
output filter. -/
structure ConvWeights where
  w : ℕ → ℕ → ℕ → ℕ → ℝ
  b : ℕ → ℝ

/-- A stride-1, 3×3, `same`-padding `Conv2D` with `filters` output channels:
each output entry is the activation of the bias plus the kernel-window dot
product over the zero-padded input (offset by 1 on each side, the `same`
padding for a 3×3 kernel).  Channels at or beyond `filters` are not part of
the output and read as 0. -/
noncomputable def conv2dSame3 (p : ConvWeights) (filters : ℕ) (act : Activation)
    (s : Shape3) (t : Tensor3) : Tensor3 :=
  fun i j f =>
    if f < filters then
      applyAct act (p.b f +
        ∑ di ∈ Finset.range 3, ∑ dj ∈ Finset.range 3, ∑ c ∈ Finset.range s.c,
          p.w di dj c f * padRead s t ((i : ℤ) + di - 1) ((j : ℤ) + dj - 1) c)
    else 0

/-- In-bounds read for pooling: `none` outside the spatial extent, so that
padding positions never contribute to a pooling maximum. -/
def inRead (s : Shape3) (t : Tensor3) (i j c : ℕ) : Option ℝ :=
  if i < s.h ∧ j < s.w then some (t i j c) else none

/-- Maximum of two optional values, ignoring `none`. -/
def omax : Option ℝ → Option ℝ → Option ℝ
  | none, b => b
  | some x, none => some x
  | some x, some y => some (max x y)

/-- A 2×2, stride-2, `same`-padding `MaxPooling2D`: each output cell is the
maximum of the in-bounds entries of its 2×2 window (padding positions are
skipped, as Keras pads max-pooling with −∞). -/
def maxPool2Same (s : Shape3) (t : Tensor3) : Tensor3 :=
  fun i j c =>
    (omax (omax (inRead s t (2 * i) (2 * j) c) (inRead s t (2 * i) (2 * j + 1) c))
      (omax (inRead s t (2 * i + 1) (2 * j) c) (inRead s t (2 * i + 1) (2 * j + 1) c))).getD 0

/-- A 2×2 `UpSampling2D`: nearest-neighbour repetition of each entry. -/
def upSample2 (t : Tensor3) : Tensor3 :=
  fun i j c => t (i / 2) (j / 2) c

/-- The trainable parameters of the five `Conv2D` layers of the model, in
source order. -/
structure AutoencoderWeights where
  conv1 : ConvWeights
  conv2 : ConvWeights
  conv3 : ConvWeights
  conv4 : ConvWeights
  conv5 : ConvWeights

/-- The forward pass of `autoencoder = Model(input_img, decoded)` on one
sample, chaining the nine layers of cell 2 in source order; returns the
output shape together with the output tensor. -/
noncomputable def autoencoderForward (p : AutoencoderWeights) (s0 : Shape3)
    (t0 : Tensor3) : Shape3 × Tensor3 :=
  let s1 := layerOutShape (.conv2D 32 (3, 3) .relu .same) s0
  let t1 := conv2dSame3 p.conv1 32 .relu s0 t0
  let s2 := layerOutShape (.maxPooling2D (2, 2) .same) s1
  let t2 := maxPool2Same s1 t1
  let s3 := layerOutShape (.conv2D 16 (3, 3) .relu .same) s2
  let t3 := conv2dSame3 p.conv2 16 .relu s2 t2
  let s4 := layerOutShape (.maxPooling2D (2, 2) .same) s3
  let t4 := maxPool2Same s3 t3
  let s5 := layerOutShape (.conv2D 16 (3, 3) .relu .same) s4
  let t5 := conv2dSame3 p.conv3 16 .relu s4 t4
  let s6 := layerOutShape (.upSampling2D (2, 2)) s5
  let t6 := upSample2 t5
  let s7 := layerOutShape (.conv2D 32 (3, 3) .relu .same) s6
  let t7 := conv2dSame3 p.conv4 32 .relu s6 t6
  let s8 := layerOutShape (.upSampling2D (2, 2)) s7
  let t8 := upSample2 t7
  let s9 := layerOutShape (.conv2D 1 (3, 3) .sigmoid .same) s8
  let t9 := conv2dSame3 p.conv5 1 .sigmoid s8 t8
  (s9, t9)

/-- `autoencoder.predict` on a batch: the forward pass applied to each
sample independently (the sample dimension of the batch is a list). -/
noncomputable def autoencoderPredict (p : AutoencoderWeights) (s0 : Shape3)
    (batch : List Tensor3) : List (Shape3 × Tensor3) :=
  batch.map (autoencoderForward p s0)

/-! ### Compile and fit configuration (cells 2 and 3) -/

/-- The four datasets of the run, as they are named in the notebook. -/
inductive DataRef where
  | xTrain
  | xTest
  | xTrainNoisy
  | xTestNoisy
  deriving DecidableEq

/-- A Keras argument selecting an optimizer: passing the bare string name
(as the notebook does) selects that optimizer with all of the library's
default hyperparameters; constructing an optimizer object would pass
explicit ones. -/
inductive OptimizerArg where
  | byName (s : String)
  | custom (s : String)
  deriving DecidableEq

/-- The arguments of `autoencoder.compile(...)`. -/
structure CompileArgs where
  optimizer : OptimizerArg
  loss : String
  deriving DecidableEq

/-- `autoencoder.compile(optimizer='adam', loss='binary_crossentropy')`. -/
def compileArgs : CompileArgs :=
  { optimizer := .byName "adam", loss := "binary_crossentropy" }

/-- The arguments of `autoencoder.fit(...)`. -/
structure FitArgs where
  x : DataRef
  y : DataRef
  epochs : ℕ
  batchSize : ℕ
  shuffle : Bool
  validation : DataRef × DataRef
  deriving DecidableEq

/-- `autoencoder.fit(x_train_noisy, x_train, epochs=10, batch_size=128,
shuffle=True, validation_data=(x_test_noisy, x_test))`. -/
def fitArgs : FitArgs :=
  { x := .xTrainNoisy
    y := .xTrain
    epochs := 10
    batchSize := 128
    shuffle := true
    validation := (.xTestNoisy, .xTest) }

/-! ### The script as an event sequence (temporal claims) -/

/-- The externally observable steps of the notebook, in the order the cells
execute.  `fitEv` carries the list of callbacks passed to `fit` (the
notebook passes none, so no checkpointing callback can fire during
training); `saveEv` carries the path written. -/
inductive Event where
  | loadDataEv
  | preprocessEv
  | addNoiseEv
  | visualizeEv (rows : ℕ)
  | buildModelEv
  | compileEv
  | fitEv (callbacks : List String)
  | saveEv (path : String)
  | predictEv
  deriving DecidableEq

/-- Whether an event serializes the model to disk. -/
def Event.isSave : Event → Bool
  | .saveEv _ => true
  | _ => false

/-- Whether an event is the training run. -/
def Event.isFit : Event → Bool
  | .fitEv _ => true
  | _ => false

/-- The notebook run, cell by cell: load MNIST, preprocess, add noise,
show the two-row noisy-vs-original grid, build and compile the model,
`fit` (with no callbacks), `save("denoising_autoencoder.h5")`, `predict`,
show the three-row comparison grid. -/
def scriptEvents : List Event :=
  [.loadDataEv, .preprocessEv, .addNoiseEv, .visualizeEv 2, .buildModelEv,
   .compileEv, .fitEv [], .saveEv "denoising_autoencoder.h5", .predictEv,
   .visualizeEv 3]

/-! ### The preprocessing cell as a state transformer (purity claim) -/

/-- The variables of the notebook that the preprocessing lines touch or
could touch: the raw arrays returned by `mnist.load_data()` and the
preprocessed arrays.  (In the source the same Python names are rebound; the
raw and processed values are separated here so that reads and writes can be
stated.) -/
structure NotebookState where
  rawTrain : NpArray
  rawTest : NpArray
  xTrain : NpArray
  xTest : NpArray
  deriving DecidableEq

/-- Lines 43–48 of cell 1 as a state transformer: rebind `x_train` and
`x_test` to the preprocessed raw arrays; nothing else is read or written.
`none` when numpy would raise on the reshape. -/
def preprocessStep (st : NotebookState) : Option NotebookState :=
  match preprocess st.rawTrain, preprocess st.rawTest with
  | some a, some b => some { st with xTrain := a, xTest := b }
  | _, _ => none

/-! ### The visualization cells as subplot-call sequences -/

/-- An image placed on a grid: `x_test[i]`, `x_test_noisy[i]` or
`decoded_imgs[i]`. -/
inductive ImgRef where
  | original (i : ℕ)
  | noisy (i : ℕ)
  | denoised (i : ℕ)
  deriving DecidableEq

/-- One `plt.subplot(rows, cols, idx)` followed by `plt.imshow(img)`. -/
structure SubplotCall where
  rows : ℕ
  cols : ℕ
  idx : ℕ
  img : ImgRef
  deriving DecidableEq

/-- The pre-training visualization of cell 1: for `i in range(10)`,
`subplot(2, n, i + 1)` shows `x_test[i]` and `subplot(2, n, i + 1 + n)`
shows `x_test_noisy[i]`, with `n = 10`. -/
def preVisCalls : List SubplotCall :=
  (List.range 10).flatMap fun i =>
    [⟨2, 10, i + 1, .original i⟩, ⟨2, 10, i + 1 + 10, .noisy i⟩]

/-- The final comparison visualization of cell 4: for `i in range(10)`,
`subplot(3, n, i + 1)` shows `x_test_noisy[i]` and `subplot(3, n, i + 1 + n)`
shows `decoded_imgs[i]`, with `n = 10`. -/
def finalVisCalls : List SubplotCall :=
  (List.range 10).flatMap fun i =>
    [⟨3, 10, i + 1, .noisy i⟩, ⟨3, 10, i + 1 + 10, .denoised i⟩]

/-! ### numpy dtype propagation (implicit numeric claim)

The notebook never names dtypes beyond `astype('float32')`, but numpy's
promotion rules fix them: `np.random.normal` returns float64; an operation
between an array and a Python float scalar keeps the array's dtype; an
operation between a float32 and a float64 array promotes to float64;
`np.clip` with Python float bounds keeps the array's dtype. -/

/-- The two floating dtypes occurring in the run. -/
inductive NpDType where
  | float32
  | float64
  deriving DecidableEq

/-- Array-array binary promotion: float64 wins. -/
def promoteDType (a b : NpDType) : NpDType :=
  if a = .float64 ∨ b = .float64 then .float64 else .float32

/-- Array-Python-float-scalar operations keep the array dtype
(`x / 255.`, `0.5 * noise`, `np.clip(x, 0., 1.)`). -/
def scalarOpDType (d : NpDType) : NpDType := d

/-- `np.random.normal(...)` samples in double precision. -/
def normalDType : NpDType := .float64

/-- dtype of `x_train` / `x_test`: `raw.astype('float32') / 255.`
(reshape does not change it). -/
def cleanDType : NpDType := scalarOpDType .float32

/-- dtype of `x_train_noisy` / `x_test_noisy`:
`np.clip(x + noise_factor * np.random.normal(...), 0., 1.)`. -/
def noisyDType : NpDType :=
  scalarOpDType (promoteDType cleanDType (scalarOpDType normalDType))

/-! ## Theorems -/

/-- Elementwise description of one entry of the clipped noisy data. -/
lemma getD_clip_zipWith (f : ℚ) :
    ∀ (xs ys : List ℚ) (i : ℕ), i < xs.length → i < ys.length →
      ((List.zipWith (· + ·) xs (ys.map (fun v => f * v))).map
          (fun v => min 1 (max 0 v))).getD i 0
        = min 1 (max 0 (xs.getD i 0 + f * ys.getD i 0)) := by
  intro xs
  induction xs with
  | nil => intro ys i hx _; exact absurd hx (by simp)
  | cons x xs ih =>
    intro ys i hx hy
    cases ys with
    | nil => exact absurd hy (by simp)
    | cons y ys =>
      cases i with
      | zero => simp
      | succ n =>
        simpa using ih ys n (by simpa using hx) (by simpa using hy)

/-- C1.  Preprocessing a raw batch of shape (N, 28, 28) whose pixels lie in
[0,255] succeeds, divides every entry by 255 (a linear rescale into [0,1]),
and produces the canonical (N, 28, 28, 1) shape. -/
theorem preprocess_unit_range_shape (a : NpArray) (N : ℕ)
    (hshape : a.shape = [N, 28, 28])
    (hdata : a.data.length = a.shape.prod)
    (hrange : ∀ v ∈ a.data, 0 ≤ v ∧ v ≤ 255) :
    ∃ b, preprocess a = some b ∧ b.shape = [N, 28, 28, 1] ∧
      b.data = a.data.map (fun v => v / 255) ∧
      ∀ v ∈ b.data, 0 ≤ v ∧ v ≤ 1 := by
  have hlenEq : a.len = N := by simp [NpArray.len, hshape]
  have hcond : (scaleDiv255 a).data.length = ([a.len, 28, 28, 1] : List ℕ).prod := by
    simp [scaleDiv255, hlenEq, hdata, hshape]
  refine ⟨⟨[N, 28, 28, 1], a.data.map (fun v => v / 255)⟩, ?_, rfl, rfl, ?_⟩
  · unfold preprocess npReshape
    rw [if_pos hcond]
    simp [scaleDiv255, hlenEq]
  · intro v hv
    rcases List.mem_map.1 hv with ⟨u, hu, rfl⟩
    rcases hrange u hu with ⟨h0, h255⟩
    exact ⟨div_nonneg h0 (by norm_num), (div_le_one (by norm_num)).2 h255⟩

/-- Witness for C1 at a concrete batch: one 28×28 sample, all pixels 3. -/
theorem preprocess_unit_range_shape_witness :
    ∃ b, preprocess ⟨[1, 28, 28], List.replicate 784 (3 : ℚ)⟩ = some b ∧
      b.shape = [1, 28, 28, 1] ∧
      b.data = (List.replicate 784 (3 : ℚ)).map (fun v => v / 255) ∧
      ∀ v ∈ b.data, 0 ≤ v ∧ v ≤ 1 :=
  preprocess_unit_range_shape ⟨[1, 28, 28], List.replicate 784 (3 : ℚ)⟩ 1 rfl
    (by rw [List.length_replicate]; rfl)
    (by intro v hv; rw [List.eq_of_mem_replicate hv]; norm_num)

/-- C2.  On shape-matching clean and noise arrays, the noise-injection step
succeeds, preserves the batch shape, and each output element equals
`clip(clean + 0.5 * noise, 0, 1)`, i.e. `min 1 (max 0 (clean + 0.5 * noise))`. -/
theorem addNoise_clip_formula (clean noise : NpArray)
    (hshape : clean.shape = noise.shape)
    (hlen : clean.data.length = noise.data.length) :
    ∃ out, addNoise noise_factor clean noise = some out ∧
      out.shape = clean.shape ∧
      out.data.length = clean.data.length ∧
      ∀ i, i < out.data.length →
        out.data.getD i 0
          = min 1 (max 0 (clean.data.getD i 0 + noise_factor * noise.data.getD i 0)) := by
  have hA : npAdd clean (npScale noise_factor noise)
      = some ⟨clean.shape,
          List.zipWith (· + ·) clean.data (noise.data.map (fun v => noise_factor * v))⟩ := by
    unfold npAdd npScale
    rw [if_pos (by simpa using hshape)]
  have hlen2 :
      (npClip 0 1 ⟨clean.shape,
          List.zipWith (· + ·) clean.data
            (noise.data.map (fun v => noise_factor * v))⟩).data.length
        = clean.data.length := by
    simp [npClip, hlen]
  refine ⟨npClip 0 1 ⟨clean.shape,
      List.zipWith (· + ·) clean.data (noise.data.map (fun v => noise_factor * v))⟩,
    ?_, rfl, hlen2, ?_⟩
  · simp [addNoise, hA]
  · intro i hi
    rw [hlen2] at hi
    exact getD_clip_zipWith noise_factor clean.data noise.data i hi (hlen ▸ hi)

/-- Witness for C2 at a concrete pair: clean `[0, 1]`, noise draw `[3, -4]`. -/
theorem addNoise_clip_formula_witness :
    ∃ out, addNoise noise_factor ⟨[2], [0, 1]⟩ ⟨[2], [3, -4]⟩ = some out ∧
      out.shape = (⟨[2], [0, 1]⟩ : NpArray).shape ∧
      out.data.length = (⟨[2], [0, 1]⟩ : NpArray).data.length ∧
      ∀ i, i < out.data.length →
        out.data.getD i 0
          = min 1 (max 0 ((⟨[2], [0, 1]⟩ : NpArray).data.getD i 0
              + noise_factor * (⟨[2], [3, -4]⟩ : NpArray).data.getD i 0)) :=
  addNoise_clip_formula ⟨[2], [0, 1]⟩ ⟨[2], [3, -4]⟩ rfl rfl

/-- C3.  Whatever the noise factor, the clean values and the noise draw,
every element of a successfully produced noisy array lies in [0,1]; both the
training and the test noisy tensors are instances of this statement. -/
theorem addNoise_range (f : ℚ) (clean noise out : NpArray)
    (h : addNoise f clean noise = some out) :
    ∀ v ∈ out.data, 0 ≤ v ∧ v ≤ 1 := by
  intro v hv
  rcases Option.map_eq_some'.1 h with ⟨w, _, rfl⟩
  rcases List.mem_map.1 hv with ⟨u, _, rfl⟩
  exact ⟨le_min zero_le_one (le_max_left 0 u), min_le_left 1 (max 0 u)⟩

/-- Witness for C3: with clean `[0, 1]` and noise draw `[3, -4]` at factor
1/2 (sums 3/2 and −1, both outside [0,1] before clipping), the clipped
output `[1, 0]` lies in [0,1]. -/
theorem addNoise_range_witness : (0 : ℚ) ≤ 1 ∧ (1 : ℚ) ≤ 1 :=
  addNoise_range (1 / 2) ⟨[2], [0, 1]⟩ ⟨[2], [3, -4]⟩ ⟨[2], [1, 0]⟩
    (by norm_num [addNoise, npAdd, npScale, npClip, min_def, max_def])
    1 (by simp)

/-- C4.  The layer stack built by cell 2 is exactly the claimed topology:
Conv(32, 3×3, ReLU, same) → MaxPool(2×2) → Conv(16, 3×3, ReLU, same) →
MaxPool(2×2) → Conv(16, 3×3, ReLU, same) → Upsample(2×2) →
Conv(32, 3×3, ReLU, same) → Upsample(2×2) → Conv(1, 3×3, sigmoid, same),
and nothing else: `autoencoderLayers` is this closed nine-element list (the
source's pooling layers additionally pass `padding='same'`, which the
claim's `MaxPool(2×2)` leaves unconstrained). -/
theorem autoencoder_topology :
    autoencoderLayers =
      [.conv2D 32 (3, 3) .relu .same, .maxPooling2D (2, 2) .same,
       .conv2D 16 (3, 3) .relu .same, .maxPooling2D (2, 2) .same,
       .conv2D 16 (3, 3) .relu .same, .upSampling2D (2, 2),
       .conv2D 32 (3, 3) .relu .same, .upSampling2D (2, 2),
       .conv2D 1 (3, 3) .sigmoid .same] ∧
    autoencoderLayers.length = 9 := ⟨rfl, rfl⟩

/-- The sigmoid takes values in [0,1]. -/
lemma sigmoid_mem_unit (x : ℝ) : 0 ≤ sigmoid x ∧ sigmoid x ≤ 1 := by
  unfold sigmoid
  have hpos : (0 : ℝ) < 1 + Real.exp (-x) := by positivity
  constructor
  · exact div_nonneg zero_le_one hpos.le
  · rw [div_le_one hpos]
    have := (Real.exp_pos (-x)).le
    linarith

/-- Every entry of a sigmoid-activated convolution layer lies in [0,1]. -/
lemma conv2dSame3_sigmoid_mem_unit (p : ConvWeights) (n : ℕ) (s : Shape3)
    (t : Tensor3) (i j f : ℕ) :
    0 ≤ conv2dSame3 p n .sigmoid s t i j f ∧ conv2dSame3 p n .sigmoid s t i j f ≤ 1 := by
  unfold conv2dSame3
  split
  · exact sigmoid_mem_unit _
  · norm_num

/-- C5.  For every setting of the convolution weights and every input batch
of (28, 28, 1) samples, `predict` keeps the sample count, every sample's
output shape is again (28, 28, 1), and every output value lies in [0,1]
(the final layer is a sigmoid). -/
theorem autoencoder_output_shape_range (p : AutoencoderWeights) (batch : List Tensor3) :
    (autoencoderPredict p ⟨28, 28, 1⟩ batch).length = batch.length ∧
    ∀ r ∈ autoencoderPredict p ⟨28, 28, 1⟩ batch,
      r.1 = ⟨28, 28, 1⟩ ∧ ∀ i j c, 0 ≤ r.2 i j c ∧ r.2 i j c ≤ 1 := by
  refine ⟨List.length_map _ _, ?_⟩
  intro r hr
  rcases List.mem_map.1 hr with ⟨t, _, rfl⟩
  refine ⟨rfl, ?_⟩
  intro i j c
  exact conv2dSame3_sigmoid_mem_unit p.conv5 1 _ _ i j c

/-- C6.  `fit` is called with the noisy training inputs and clean training
targets, the noisy/clean test pair as validation data, 10 epochs, batch
size 128 and per-epoch shuffling; `compile` selects binary cross-entropy
and the optimizer by the bare name `'adam'`, i.e. Adam with the library's
default hyperparameters. -/
theorem training_configuration :
    fitArgs.x = .xTrainNoisy ∧ fitArgs.y = .xTrain ∧
    fitArgs.validation = (.xTestNoisy, .xTest) ∧
    fitArgs.epochs = 10 ∧ fitArgs.batchSize = 128 ∧ fitArgs.shuffle = true ∧
    compileArgs.loss = "binary_crossentropy" ∧
    compileArgs.optimizer = .byName "adam" :=
  ⟨rfl, rfl, rfl, rfl, rfl, rfl, rfl, rfl⟩

/-- C7.  In the notebook's event sequence the model is serialized exactly
once, to `denoising_autoencoder.h5`; every save event comes strictly after
the training event; and the training call carries no callbacks, so nothing
can checkpoint mid-run. -/
theorem save_once_after_training :
    scriptEvents.filter Event.isSave = [.saveEv "denoising_autoencoder.h5"] ∧
    (∀ i j : Fin scriptEvents.length,
      (scriptEvents.get i).isFit = true → (scriptEvents.get j).isSave = true → i < j) ∧
    (∀ e ∈ scriptEvents, e.isFit = true → e = .fitEv []) := by
  decide

/-- C8.  The preprocessing lines are deterministic and side-effect free:
two runs from states that agree on the raw arrays produce the same
preprocessed outputs (and agree on success), and a run never changes any
state other than the two preprocessed variables. -/
theorem preprocess_pure (s1 s2 : NotebookState)
    (hTrain : s1.rawTrain = s2.rawTrain) (hTest : s1.rawTest = s2.rawTest) :
    ((preprocessStep s1).map NotebookState.xTrain
        = (preprocessStep s2).map NotebookState.xTrain ∧
      (preprocessStep s1).map NotebookState.xTest
        = (preprocessStep s2).map NotebookState.xTest ∧
      (preprocessStep s1).isSome = (preprocessStep s2).isSome) ∧
    ∀ s', preprocessStep s1 = some s' →
      s'.rawTrain = s1.rawTrain ∧ s'.rawTest = s1.rawTest := by
  constructor
  · unfold preprocessStep
    rw [hTrain, hTest]
    cases preprocess s2.rawTrain <;> cases preprocess s2.rawTest <;> simp
  · intro s' h
    unfold preprocessStep at h
    rcases hA : preprocess s1.rawTrain with _ | a <;>
      rcases hB : preprocess s1.rawTest with _ | b <;>
        rw [hA, hB] at h <;> simp at h
    subst h
    exact ⟨rfl, rfl⟩

/-- Witness for C8: two states sharing the raw arrays but holding different
stale values in the preprocessed variables. -/
theorem preprocess_pure_witness :
    ((preprocessStep ⟨⟨[0, 28, 28], []⟩, ⟨[0, 28, 28], []⟩, ⟨[], []⟩, ⟨[], []⟩⟩).map
        NotebookState.xTrain
      = (preprocessStep ⟨⟨[0, 28, 28], []⟩, ⟨[0, 28, 28], []⟩, ⟨[1], [5]⟩, ⟨[1], [5]⟩⟩).map
        NotebookState.xTrain ∧
      (preprocessStep ⟨⟨[0, 28, 28], []⟩, ⟨[0, 28, 28], []⟩, ⟨[], []⟩, ⟨[], []⟩⟩).map
        NotebookState.xTest
      = (preprocessStep ⟨⟨[0, 28, 28], []⟩, ⟨[0, 28, 28], []⟩, ⟨[1], [5]⟩, ⟨[1], [5]⟩⟩).map
        NotebookState.xTest ∧
      (preprocessStep ⟨⟨[0, 28, 28], []⟩, ⟨[0, 28, 28], []⟩, ⟨[], []⟩, ⟨[], []⟩⟩).isSome
      = (preprocessStep ⟨⟨[0, 28, 28], []⟩, ⟨[0, 28, 28], []⟩, ⟨[1], [5]⟩, ⟨[1], [5]⟩⟩).isSome) ∧
    ∀ s', preprocessStep ⟨⟨[0, 28, 28], []⟩, ⟨[0, 28, 28], []⟩, ⟨[], []⟩, ⟨[], []⟩⟩ = some s' →
      s'.rawTrain = (⟨[0, 28, 28], []⟩ : NpArray) ∧ s'.rawTest = (⟨[0, 28, 28], []⟩ : NpArray) :=
  preprocess_pure ⟨⟨[0, 28, 28], []⟩, ⟨[0, 28, 28], []⟩, ⟨[], []⟩, ⟨[], []⟩⟩
    ⟨⟨[0, 28, 28], []⟩, ⟨[0, 28, 28], []⟩, ⟨[1], [5]⟩, ⟨[1], [5]⟩⟩ rfl rfl

/-- C9.  The final comparison figure is a 3×10 grid on which the first ten
noisy/denoised pairs are drawn (rows 1 and 2 of the grid), and the
pre-training figure is a 2×10 grid on which the first ten original/noisy
pairs are drawn. -/
theorem visualization_grids :
    (∀ call ∈ finalVisCalls, call.rows = 3 ∧ call.cols = 10) ∧
    finalVisCalls.length = 2 * 10 ∧
    (∀ i < 10, (⟨3, 10, i + 1, .noisy i⟩ : SubplotCall) ∈ finalVisCalls ∧
      (⟨3, 10, i + 1 + 10, .denoised i⟩ : SubplotCall) ∈ finalVisCalls) ∧
    (∀ call ∈ preVisCalls, call.rows = 2 ∧ call.cols = 10) ∧
    preVisCalls.length = 2 * 10 ∧
    (∀ i < 10, (⟨2, 10, i + 1, .original i⟩ : SubplotCall) ∈ preVisCalls ∧
      (⟨2, 10, i + 1 + 10, .noisy i⟩ : SubplotCall) ∈ preVisCalls) := by
  decide

/-- C10.  numpy dtype propagation over the notebook's expressions: the
preprocessed clean tensors are float32, while the noisy tensors (clean
float32 plus the scaled float64 Gaussian draw, then clipped) are promoted
to float64 — for the training and the test split alike, which share these
expression shapes. -/
theorem noisy_dtype_promotion :
    cleanDType = .float32 ∧ noisyDType = .float64 :=
  ⟨rfl, rfl⟩

end Denoise
